import Mathlib

set_option maxRecDepth 10000

/-!
Shallow embedding of the subcommand dispatch and argument handling of
`subversion/clients/cmdline/main.c` (early Subversion command-line client):
the revision-range parser (`validate_revision`, `parse_revision`), the
date-range parser (`parse_date`), the command dispatch table
(`svn_cl__cmd_table`, `get_cmd_table_entry`, `svn_cl__get_canonical_command`),
and the option-scanning / dispatch flow of `main`.

C strings are `List Char`; mutation of the option-state record is explicit
state passing; external collaborators (the date parser from getdate, file
reading, the working-copy entry check, `setlocale`) are oracles bundled in
`Env`.
-/

/-- Modelled from the spec: the "latest" sentinel for a revision endpoint.
The constant `SVN_INVALID_REVNUM` comes from the header `svn_types.h`, which
is not part of the sources here; it is the distinguished value -1 of the
signed revision-number type, meaning "the youngest revision". -/
def SVN_INVALID_REVNUM : Int := -1

/-- Modelled from the spec: process exit status for success (C `EXIT_SUCCESS`). -/
def EXIT_SUCCESS : Nat := 0

/-- Modelled from the spec: process exit status for failure (C `EXIT_FAILURE`,
any nonzero value; 1 in practice). -/
def EXIT_FAILURE : Nat := 1

/-- Modelled from the spec: synthetic option code for `--force` from the
missing header `cl.h`; long-only switches use distinct integers above 255. -/
def svn_cl__force_opt : Nat := 256

/-- Modelled from the spec: synthetic option code for `--recursive` (cl.h). -/
def svn_cl__recursive_opt : Nat := 257

/-- Modelled from the spec: synthetic option code for `--xml-file` (cl.h). -/
def svn_cl__xml_file_opt : Nat := 258

/-- Modelled from the spec: synthetic option code for `--locale` (cl.h). -/
def svn_cl__locale_opt : Nat := 259

/-- Modelled from the spec: synthetic option code for `--version` (cl.h). -/
def svn_cl__version_opt : Nat := 260

/-- Modelled from the spec: synthetic option code for `--username` (cl.h). -/
def svn_cl__auth_username_opt : Nat := 261

/-- Modelled from the spec: synthetic option code for `--password` (cl.h). -/
def svn_cl__auth_password_opt : Nat := 262

/-- The option-state record `svn_cl__opt_state_t`.  The struct itself lives in
the missing header `cl.h`; the fields are the ones `main.c` reads and writes.
String-valued fields (`svn_stringbuf_t *`, NULL when unset) are
`Option (List Char)`; revisions (`svn_revnum_t`) and dates (`apr_time_t`)
are `Int`; flags (`svn_boolean_t`) are `Bool`. -/
structure OptState where
  message : Option (List Char)
  xml_file : Option (List Char)
  target : Option (List Char)
  filedata : Option (List Char)
  auth_username : Option (List Char)
  auth_password : Option (List Char)
  extensions : Option (List Char)
  start_revision : Int
  end_revision : Int
  start_date : Int
  end_date : Int
  verbose : Bool
  very_verbose : Bool
  update : Bool
  help : Bool
  quiet : Bool
  modified : Bool
  force : Bool
  recursive : Bool
  nonrecursive : Bool
  version : Bool
deriving DecidableEq

/-- The all-zero option state produced by `memset (&opt_state, 0, ...)` in
`main`: every pointer NULL, every flag FALSE, every number 0. -/
def opt_state_zeroed : OptState :=
  { message := none, xml_file := none, target := none, filedata := none
  , auth_username := none, auth_password := none, extensions := none
  , start_revision := 0, end_revision := 0, start_date := 0, end_date := 0
  , verbose := false, very_verbose := false, update := false, help := false
  , quiet := false, modified := false, force := false, recursive := false
  , nonrecursive := false, version := false }

/-- The option state right after initialization in `main`:
`opt_state.start_revision = SVN_INVALID_REVNUM` (default to youngest) and
`opt_state.end_revision = 1` (default to oldest), over the zeroed record. -/
def opt_state_initial : OptState :=
  { opt_state_zeroed with start_revision := SVN_INVALID_REVNUM, end_revision := 1 }

/-- The `strchr (arg, ':')` split used by both range parsers: `none` when the
string has no colon, otherwise `some (left, right)` where `left` is the text
before the first colon and `right` is everything after it. -/
def splitFirstColon : List Char → Option (List Char × List Char)
  | [] => none
  | c :: rest =>
      if c = ':' then some ([], rest)
      else
        match splitFirstColon rest with
        | none => none
        | some (l, r) => some (c :: l, r)

/-- The head-form branch of `validate_revision`, reached when the first
character of REV is not a digit: the length must be exactly 1 or exactly 4;
a length-1 string must be `h` or `H`; a length-4 string must be `head` with
each character independently upper or lower case.  Returns 0 for valid,
1 for invalid, as the C code does. -/
def head_form_check : List Char → Nat
  | [c] => if c = 'h' ∨ c = 'H' then 0 else 1
  | [c1, c2, c3, c4] =>
      if (c1 = 'h' ∨ c1 = 'H') ∧ (c2 = 'e' ∨ c2 = 'E')
          ∧ (c3 = 'a' ∨ c3 = 'A') ∧ (c4 = 'd' ∨ c4 = 'D')
      then 0 else 1
  | _ => 1

/-- The scanning loop of `validate_revision`: walk the characters of REV;
on the first non-digit, fail (return 1) if some digits were already seen
(index not 0), otherwise run the head-form check on the whole string;
if every character is a digit (including the empty string) return 0. -/
def validate_scan (rev : List Char) : List Char → Nat → Nat
  | [], _ => 0
  | c :: rest, i =>
      if c < '0' ∨ '9' < c then
        (if i ≠ 0 then 1 else head_form_check rev)
      else validate_scan rev rest (i + 1)

/-- `validate_revision` from main.c: return nonzero if REV is not all digits,
nor `head`, `h`, nor some case variation of same; otherwise return 0. -/
def validate_revision (rev : List Char) : Nat :=
  validate_scan rev rev 0

/-- Modelled from the spec: the C library `atoi` on the all-digit strings
that a validated revision half consists of — the decimal integer value
(accumulate digits until a non-digit stops the scan). -/
def atoi_digits : List Char → Nat → Nat
  | [], acc => acc
  | c :: rest, acc =>
      if '0' ≤ c ∧ c ≤ '9' then atoi_digits rest (acc * 10 + (c.toNat - '0'.toNat))
      else acc

/-- Modelled from the spec: `atoi` as used by `parse_revision`. -/
def atoi (s : List Char) : Int :=
  Int.ofNat (atoi_digits s 0)

/-- The decoding of one validated revision half in `parse_revision`: if its
first character is `h`, `H`, or the string is empty (first char NUL), the
field gets `SVN_INVALID_REVNUM`; otherwise the `atoi` value. -/
def rev_of_half (s : List Char) : Int :=
  match s with
  | [] => SVN_INVALID_REVNUM
  | c :: _ => if c = 'h' ∨ c = 'H' then SVN_INVALID_REVNUM else atoi s

/-- `parse_revision` from main.c: split ARG on the first colon (a second colon
anywhere after it is an error), with no separator both halves are the whole
string; validate each half with `validate_revision` (on any failure return 1
with the state untouched); then decode each half with `rev_of_half` into
`start_revision` and `end_revision` and return 0 (`SVN_NO_ERROR`). -/
def parse_revision (os : OptState) (arg : List Char) : Nat × OptState :=
  match splitFirstColon arg with
  | some (l, r) =>
      if ':' ∈ r then (1, os)
      else if validate_revision l ≠ 0 ∨ validate_revision r ≠ 0 then (1, os)
      else (0, { os with start_revision := rev_of_half l, end_revision := rev_of_half r })
  | none =>
      if validate_revision arg ≠ 0 then (1, os)
      else (0, { os with start_revision := rev_of_half arg, end_revision := rev_of_half arg })

/-- Modelled from the spec: `apr_ansi_time_to_apr_time`, the conversion from
an ANSI `time_t` (seconds) to an `apr_time_t` (microseconds). -/
def apr_ansi_time_to_apr_time (t : Int) : Int :=
  t * 1000000

/-- Modelled from the spec: the external date-parsing collaborator
`svn_parse_date` (from getdate), which is not part of the sources here.
`pd` is the collaborator itself: `some t` when it parses the text to a
time value, `none` when it rejects it.  Its C-level return value on
rejection is the `(time_t) -1` failure marker, a convention this model
keeps since the spec does not redefine the failure mode. -/
def svn_parse_date (pd : List Char → Option Int) (s : List Char) : Int :=
  match pd s with
  | some t => t
  | none => -1

/-- The `if (*left_date)` branch of `parse_date`: a non-empty left half is
parsed and its converted value stored in `start_date`; an empty left half
leaves `start_date` alone. -/
def date_assign_left (pd : List Char → Option Int) (os : OptState) (l : List Char) : OptState :=
  if l ≠ [] then { os with start_date := apr_ansi_time_to_apr_time (svn_parse_date pd l) }
  else os

/-- The `if (*right_date)` branch of `parse_date`: a non-empty right half is
parsed and its converted value stored in `end_date`; an empty right half
leaves `end_date` alone. -/
def date_assign_right (pd : List Char → Option Int) (os : OptState) (r : List Char) : OptState :=
  if r ≠ [] then { os with end_date := apr_ansi_time_to_apr_time (svn_parse_date pd r) }
  else os

/-- `parse_date` from main.c: split ARG on the first colon; a second colon
after it returns 1 with the state untouched; with a separator each non-empty
half is parsed by the external collaborator and assigned to its own endpoint
(an empty half leaves its endpoint alone); with no separator the whole string
is parsed into `start_date` and `end_date` is copied from `start_date`.
The collaborator's result is stored unconditionally — the code never
inspects it — and the function returns 0 (`SVN_NO_ERROR`) on every path
that does not see a second colon. -/
def parse_date (pd : List Char → Option Int) (os : OptState) (arg : List Char) : Nat × OptState :=
  match splitFirstColon arg with
  | some (l, r) =>
      if ':' ∈ r then (1, os)
      else (0, date_assign_right pd (date_assign_left pd os l) r)
  | none =>
      (0, { os with
            start_date := apr_ansi_time_to_apr_time (svn_parse_date pd arg)
          , end_date := apr_ansi_time_to_apr_time (svn_parse_date pd arg) })

/-- The external subcommand handlers (`svn_cl__add`, `svn_cl__checkout`, ...):
opaque references; only their identity matters to the dispatch table. -/
inductive CmdProc
  | add | checkout | cleanup | commit | copy | delete | diff | help
  | import_cmd | log | mkdir | move | propdel | propedit | propget
  | proplist | propset | revert | status | switch_cmd | update
deriving DecidableEq

/-- One element of the command dispatch table (`svn_cl__cmd_desc_t`): the
command name, whether the entry is an alias of the preceding base entry,
the handler (NULL for aliases), the help string (NULL for aliases), and the
advertised option codes (the zero padding of the fixed-size C array is
dropped; only the explicitly listed nonzero codes are kept). -/
structure CmdDesc where
  name : List Char
  is_alias : Bool
  cmd_func : Option CmdProc
  help : Option (List Char)
  valid_options : List Nat
deriving DecidableEq

/-- `svn_cl__cmd_table` from main.c: canonical name entries immediately
followed by their aliases; the terminating all-null sentinel entry of the C
array is represented by the end of the list. -/
def svn_cl__cmd_table : List CmdDesc :=
  [ { name := "add".toList, is_alias := false, cmd_func := some CmdProc.add
    , help := some ("Add new files and directories to version control.\nusage: add [TARGETS]\n".toList)
    , valid_options := ['r'.toNat] }
  , { name := "ad".toList, is_alias := true, cmd_func := none, help := none, valid_options := [] }
  , { name := "new".toList, is_alias := true, cmd_func := none, help := none, valid_options := [] }
  , { name := "checkout".toList, is_alias := false, cmd_func := some CmdProc.checkout
    , help := some ("Check out a working directory from a repository.\nusage: checkout REPOS_URL1 [REPOS_URL2 REPOS_URL3...]\n".toList)
    , valid_options := [svn_cl__auth_username_opt, svn_cl__auth_password_opt,
        svn_cl__xml_file_opt, 'd'.toNat, 'q'.toNat, 'n'.toNat, 'D'.toNat, 'r'.toNat] }
  , { name := "co".toList, is_alias := true, cmd_func := none, help := none, valid_options := [] }
  , { name := "cleanup".toList, is_alias := false, cmd_func := some CmdProc.cleanup
    , help := some ("Recursively clean up the working copy, removing locks, resuming\nunfinished operations, etc.\nusage: cleanup [TARGETS]\n".toList)
    , valid_options := [] }
  , { name := "commit".toList, is_alias := false, cmd_func := some CmdProc.commit
    , help := some ("Commit changes from your working copy to the repository.\nusage: commit [TARGETS]\n".toList)
    , valid_options := ['F'.toNat, 'm'.toNat, svn_cl__auth_username_opt,
        svn_cl__auth_password_opt, svn_cl__xml_file_opt, 'q'.toNat, 'r'.toNat] }
  , { name := "ci".toList, is_alias := true, cmd_func := none, help := none, valid_options := [] }
  , { name := "copy".toList, is_alias := false, cmd_func := some CmdProc.copy
    , help := some ("Duplicate something in your working copy, remembering history.\nusage: copy SRC_PATH DST_PATH.\n".toList)
    , valid_options := ['F'.toNat, 'm'.toNat, 'r'.toNat, svn_cl__auth_username_opt,
        svn_cl__auth_password_opt] }
  , { name := "cp".toList, is_alias := true, cmd_func := none, help := none, valid_options := [] }
  , { name := "delete".toList, is_alias := false, cmd_func := some CmdProc.delete
    , help := some ("Remove files and directories from version control.\nusage: delete [TARGET]\n       delete REPOS_URL1 [[REPOS_URL2] ... ]\n".toList)
    , valid_options := ['F'.toNat, 'm'.toNat, svn_cl__auth_username_opt,
        svn_cl__auth_password_opt, svn_cl__force_opt] }
  , { name := "del".toList, is_alias := true, cmd_func := none, help := none, valid_options := [] }
  , { name := "remove".toList, is_alias := true, cmd_func := none, help := none, valid_options := [] }
  , { name := "rm".toList, is_alias := true, cmd_func := none, help := none, valid_options := [] }
  , { name := "diff".toList, is_alias := false, cmd_func := some CmdProc.diff
    , help := some ("Display local changes in the working copy, or changes between the\nworking copy and the repository if a revision is given.\nusage: diff [-r REV] [TARGETS]\n".toList)
    , valid_options := [svn_cl__auth_username_opt, svn_cl__auth_password_opt,
        'x'.toNat, 'r'.toNat, 'd'.toNat, 'n'.toNat] }
  , { name := "di".toList, is_alias := true, cmd_func := none, help := none, valid_options := [] }
  , { name := "help".toList, is_alias := false, cmd_func := some CmdProc.help
    , help := some ("Display this usage message.\nusage: help [SUBCOMMAND1 [SUBCOMMAND2] ...]\n".toList)
    , valid_options := [svn_cl__version_opt] }
  , { name := "?".toList, is_alias := true, cmd_func := none, help := none, valid_options := [] }
  , { name := "h".toList, is_alias := true, cmd_func := none, help := none, valid_options := [] }
  , { name := "import".toList, is_alias := false, cmd_func := some CmdProc.import_cmd
    , help := some ("Import a file or tree into the repository.\nusage: import REPOS_URL [PATH] [NEW_ENTRY_IN_REPOS] \n".toList)
    , valid_options := ['F'.toNat, 'm'.toNat, svn_cl__auth_username_opt,
        svn_cl__auth_password_opt, svn_cl__xml_file_opt, 'q'.toNat, 'r'.toNat] }
  , { name := "log".toList, is_alias := false, cmd_func := some CmdProc.log
    , help := some ("Show the log messages for a set of revision(s) and/or file(s).\nusage: log [-r REV1([:)REV2]] [PATH1 [PATH2] ...] \n".toList)
    , valid_options := [svn_cl__auth_username_opt, svn_cl__auth_password_opt,
        'r'.toNat, 'v'.toNat] }
  , { name := "mkdir".toList, is_alias := false, cmd_func := some CmdProc.mkdir
    , help := some ("Create a new directory under revision control.\nusage: mkdir [NEW_DIR | REPOS_URL].\n".toList)
    , valid_options := [svn_cl__auth_username_opt, svn_cl__auth_password_opt,
        'm'.toNat, 'F'.toNat] }
  , { name := "move".toList, is_alias := false, cmd_func := some CmdProc.move
    , help := some ("Move or rename something working copy.\nusage: move SRC_PATH DST_PATH.\n".toList)
    , valid_options := [svn_cl__auth_username_opt, svn_cl__auth_password_opt,
        'm'.toNat, 'F'.toNat, 'r'.toNat] }
  , { name := "mv".toList, is_alias := true, cmd_func := none, help := none, valid_options := [] }
  , { name := "rename".toList, is_alias := true, cmd_func := none, help := none, valid_options := [] }
  , { name := "ren".toList, is_alias := true, cmd_func := none, help := none, valid_options := [] }
  , { name := "propdel".toList, is_alias := false, cmd_func := some CmdProc.propdel
    , help := some ("Remove property PROPNAME on files and directories.\nusage: propdel PROPNAME [TARGETS]\n".toList)
    , valid_options := ['q'.toNat, svn_cl__recursive_opt] }
  , { name := "pdel".toList, is_alias := true, cmd_func := none, help := none, valid_options := [] }
  , { name := "propedit".toList, is_alias := false, cmd_func := some CmdProc.propedit
    , help := some ("Edit property PROPNAME with $EDITOR on files and directories.\nusage: propedit PROPNAME [TARGETS]\n".toList)
    , valid_options := [] }
  , { name := "pedit".toList, is_alias := true, cmd_func := none, help := none, valid_options := [] }
  , { name := "pe".toList, is_alias := true, cmd_func := none, help := none, valid_options := [] }
  , { name := "propget".toList, is_alias := false, cmd_func := some CmdProc.propget
    , help := some ("Get the value of property PROPNAME on files and directories.\nusage: propget PROPNAME [TARGETS]\n".toList)
    , valid_options := [svn_cl__recursive_opt] }
  , { name := "pget".toList, is_alias := true, cmd_func := none, help := none, valid_options := [] }
  , { name := "pg".toList, is_alias := true, cmd_func := none, help := none, valid_options := [] }
  , { name := "proplist".toList, is_alias := false, cmd_func := some CmdProc.proplist
    , help := some ("List all properties for given files and directories.\nusage: proplist [TARGETS]\n".toList)
    , valid_options := [svn_cl__recursive_opt] }
  , { name := "plist".toList, is_alias := true, cmd_func := none, help := none, valid_options := [] }
  , { name := "pl".toList, is_alias := true, cmd_func := none, help := none, valid_options := [] }
  , { name := "propset".toList, is_alias := false, cmd_func := some CmdProc.propset
    , help := some ("Set property PROPNAME to PROPVAL on files and directories.\nusage: propset PROPNAME [PROPVAL | -F/--filedata VALFILE] [TARGETS]\n".toList)
    , valid_options := ['F'.toNat, 'q'.toNat, svn_cl__recursive_opt] }
  , { name := "pset".toList, is_alias := true, cmd_func := none, help := none, valid_options := [] }
  , { name := "ps".toList, is_alias := true, cmd_func := none, help := none, valid_options := [] }
  , { name := "revert".toList, is_alias := false, cmd_func := some CmdProc.revert
    , help := some ("Restore pristine working copy file (undo all local edits)\nusage: revert [TARGETS]\n".toList)
    , valid_options := [svn_cl__recursive_opt] }
  , { name := "status".toList, is_alias := false, cmd_func := some CmdProc.status
    , help := some ("Print the status of working copy files and directories.\nusage: status [TARGETS]\n".toList)
    , valid_options := [svn_cl__auth_username_opt, svn_cl__auth_password_opt,
        'u'.toNat, 'n'.toNat, 'v'.toNat, 'q'.toNat] }
  , { name := "stat".toList, is_alias := true, cmd_func := none, help := none, valid_options := [] }
  , { name := "st".toList, is_alias := true, cmd_func := none, help := none, valid_options := [] }
  , { name := "switch".toList, is_alias := false, cmd_func := some CmdProc.switch_cmd
    , help := some ("Update existing working copy files and directories to become\na working copy of a different repository URL.\nusage: switch [TARGET] REPOS_URL\n".toList)
    , valid_options := [] }
  , { name := "sw".toList, is_alias := true, cmd_func := none, help := none, valid_options := [] }
  , { name := "update".toList, is_alias := false, cmd_func := some CmdProc.update
    , help := some ("Bring changes from the repository into the working copy.\nusage: update [TARGETS]\n".toList)
    , valid_options := [svn_cl__auth_username_opt, svn_cl__auth_password_opt,
        'r'.toNat, 'D'.toNat, 'n'.toNat, svn_cl__xml_file_opt] }
  , { name := "up".toList, is_alias := true, cmd_func := none, help := none, valid_options := [] }
  ]

/-- The scanning loop of `get_cmd_table_entry`: walk the table entries in
order with a running index, returning the index of the first entry whose
name is an exact string match. -/
def find_in_table : List CmdDesc → List Char → Nat → Option Nat
  | [], _, _ => none
  | d :: rest, s, i => if d.name = s then some i else find_in_table rest s (i + 1)

/-- `get_cmd_table_entry` from main.c: return the entry (here: its index)
in `svn_cl__cmd_table` whose name matches CMD_NAME, or null if none; a NULL
CMD_NAME yields NULL immediately, before the table scan. -/
def get_cmd_table_entry (cmd_name : Option (List Char)) : Option Nat :=
  match cmd_name with
  | none => none
  | some s => find_in_table svn_cl__cmd_table s 0

/-- The `is_alias` field of the table entry at index `i` (`false` past the
end of the table, where the C array holds the all-null sentinel whose
`is_alias` is FALSE). -/
def isAliasAt (i : Nat) : Bool :=
  match svn_cl__cmd_table[i]? with
  | some d => d.is_alias
  | none => false

/-- The name of the table entry at index `i`, when the index is in range. -/
def nameAt (i : Nat) : Option (List Char) :=
  (svn_cl__cmd_table[i]?).map CmdDesc.name

/-- The backward walk `while (cmd_desc->is_alias) cmd_desc--;` of
`svn_cl__get_canonical_command`, on indices: from a non-alias entry stop
there; from an alias entry step to the previous index.  Stepping backward
past the first table entry — which the C code would do as an out-of-bounds
pointer decrement — is represented by `none`. -/
def canonical_walk : Nat → Option Nat
  | 0 => if isAliasAt 0 then none else some 0
  | i + 1 => if isAliasAt (i + 1) then canonical_walk i else some (i + 1)

/-- `svn_cl__get_canonical_command` from main.c: look the name up in the
table; NULL stays NULL; from a found entry walk backward over alias entries
to the owning canonical entry. -/
def svn_cl__get_canonical_command (cmd : Option (List Char)) : Option Nat :=
  match get_cmd_table_entry cmd with
  | none => none
  | some i => canonical_walk i

/-- Decidable form of the properties of one backward walk used below: the
walk from `i` lands on some `j ≤ i`, that `j` is a fixed point of the walk,
is not an alias, and when `i` itself is an alias the names at `j` and `i`
differ. -/
def walk_ok (i : Nat) : Bool :=
  match canonical_walk i with
  | none => false
  | some j =>
      decide (j ≤ i) && decide (canonical_walk j = some j)
        && decide (isAliasAt j = false)
        && (decide (isAliasAt i = false) || decide (nameAt j ≠ nameAt i))

/-- The diagnostics `main` can print to its output streams, tagged by kind. -/
inductive Diag
  | tokenizerError
  | revisionSyntaxError (arg : List Char)
  | dateSyntaxError (arg : List Char)
  | fileReadError (arg : List Char)
  | localeError (arg : List Char)
  | subcommandRequired
  | unknownCommand (name : List Char)
  | logMsgVersionedFile
  | handlerError
deriving DecidableEq

/-- The external collaborators of the option scan, as oracles:
`pd` is the date-parsing collaborator (`svn_parse_date`);
`readFile` is `svn_string_from_file` (`none` = read error);
`wcEntry` tells whether `svn_wc_entry` succeeds with a non-null entry,
i.e. whether the path is under version control;
`setlocaleOk` tells whether `setlocale (LC_ALL, arg)` succeeds. -/
structure Env where
  pd : List Char → Option Int
  readFile : List Char → Option (List Char)
  wcEntry : List Char → Bool
  setlocaleOk : List Char → Bool

/-- The mutable state of the option-scanning loop in `main`: the option
state, the local flag `log_under_version_control`, and the diagnostics
printed so far. -/
structure ScanState where
  os : OptState
  log_under_version_control : Bool
  diags : List Diag
deriving DecidableEq

/-- The scan state at the top of the option loop in `main`. -/
def scan_state_initial : ScanState :=
  { os := opt_state_initial, log_under_version_control := false, diags := [] }

/-- One result of `apr_getopt_long` as seen by the loop in `main`: a
recognized option (its code and argument string) or a tokenizer failure
(the non-EOF, non-success status).  End of file is the end of the list. -/
inductive ScanItem
  | opt (id : Nat) (arg : List Char)
  | tokenizerFailure
deriving DecidableEq

/-- The body of the option `switch` in `main`, for one recognized option:
either the updated scan state, or the diagnostics at the point where the
process exits with `EXIT_FAILURE`.  Cases follow the C switch in its order;
the numeric literals are the ASCII codes of the C character cases
(109 `m`, 114 `r`, 68 `D`, 118 `v`, 86 `V`, 117 `u`, 104 `h`, 63 `?`,
113 `q`, 100 `d`, 70 `F`, 77 `M`, 110 `n`, 120 `x`) and the synthetic codes
(258 xml-file, 256 force, 257 recursive, 260 version, 261 username,
262 password, 259 locale); the final catch-all ignores the option. -/
def scanStep (env : Env) (st : ScanState) (id : Nat) (arg : List Char) :
    ScanState ⊕ List Diag :=
  match id with
  | 109 => Sum.inl { st with os := { st.os with message := some arg } }
  | 114 =>
      if (parse_revision st.os arg).fst ≠ 0 then
        Sum.inr (st.diags ++ [Diag.revisionSyntaxError arg])
      else Sum.inl { st with os := (parse_revision st.os arg).snd }
  | 68 =>
      if (parse_date env.pd st.os arg).fst ≠ 0 then
        Sum.inr (st.diags ++ [Diag.dateSyntaxError arg])
      else Sum.inl { st with os := (parse_date env.pd st.os arg).snd }
  | 118 => Sum.inl { st with os := { st.os with verbose := true } }
  | 86 => Sum.inl { st with os := { st.os with very_verbose := true } }
  | 117 => Sum.inl { st with os := { st.os with update := true } }
  | 104 => Sum.inl { st with os := { st.os with help := true } }
  | 63 => Sum.inl { st with os := { st.os with help := true } }
  | 113 => Sum.inl { st with os := { st.os with quiet := true } }
  | 258 => Sum.inl { st with os := { st.os with xml_file := some arg } }
  | 100 => Sum.inl { st with os := { st.os with target := some arg } }
  | 70 =>
      (match env.readFile arg with
       | none => Sum.inr (st.diags ++ [Diag.fileReadError arg])
       | some data =>
           Sum.inl { st with
                     os := { st.os with filedata := some data },
                     log_under_version_control :=
                       st.log_under_version_control || env.wcEntry arg })
  | 77 => Sum.inl { st with os := { st.os with modified := true } }
  | 256 => Sum.inl { st with os := { st.os with force := true } }
  | 257 => Sum.inl { st with os := { st.os with recursive := true } }
  | 110 => Sum.inl { st with os := { st.os with nonrecursive := true } }
  | 260 => Sum.inl { st with os := { st.os with version := true, help := true } }
  | 261 => Sum.inl { st with os := { st.os with auth_username := some arg } }
  | 262 => Sum.inl { st with os := { st.os with auth_password := some arg } }
  | 259 =>
      if env.setlocaleOk arg then Sum.inl st
      else Sum.inl { st with diags := st.diags ++ [Diag.localeError arg] }
  | 120 => Sum.inl { st with os := { st.os with extensions := some arg } }
  | _ => Sum.inl st

/-- The option loop of `main` over the tokenizer's outputs: a tokenizer
failure prints help and exits with failure; otherwise each option is
processed by `scanStep`, stopping at the first fatal one. -/
def scanLoop (env : Env) : List ScanItem → ScanState → ScanState ⊕ List Diag
  | [], st => Sum.inl st
  | ScanItem.tokenizerFailure :: _, st => Sum.inr (st.diags ++ [Diag.tokenizerError])
  | ScanItem.opt id arg :: rest, st =>
      match scanStep env st id arg with
      | Sum.inl st2 => scanLoop env rest st2
      | Sum.inr d => Sum.inr d

/-- The part of a scan state the later dispatch behaves on: the option
state and the versioned-log-message flag (everything except the printed
diagnostics). -/
def scan_core (st : ScanState) : OptState × Bool :=
  (st.os, st.log_under_version_control)

/-- `scan_core` of a scan outcome, `none` for a fatal exit. -/
def outcome_core : ScanState ⊕ List Diag → Option (OptState × Bool)
  | Sum.inl st => some (scan_core st)
  | Sum.inr _ => none

/-- The outcome of the one external handler call in `main`: success, an
error of kind `SVN_ERR_CL_ARG_PARSING_ERROR` (not re-printed), or any
other error (printed). -/
inductive HandlerOutcome
  | success
  | errArgParsing
  | errOther
deriving DecidableEq

/-- What `main` does after the option scan: the exit status, which
command handler (by table index) was invoked if any, and the diagnostics. -/
structure MainResult where
  exit : Nat
  invoked : Option Nat
  diags : List Diag
deriving DecidableEq

/-- The tail of `main` once a subcommand (table index `i`) is fixed: the
guard `if (log_under_version_control && (! opt_state.force))` refuses with
the log-message-is-versioned-file error before any handler runs; otherwise
the handler is invoked and its outcome decides the exit status (an
arg-parsing error is not re-printed). -/
def run_guard_and_handler (st : ScanState) (i : Nat) (hnd : Nat → HandlerOutcome) :
    MainResult :=
  if st.log_under_version_control && !st.os.force then
    { exit := EXIT_FAILURE, invoked := none, diags := st.diags ++ [Diag.logMsgVersionedFile] }
  else
    match hnd i with
    | HandlerOutcome.success => { exit := EXIT_SUCCESS, invoked := some i, diags := st.diags }
    | HandlerOutcome.errArgParsing =>
        { exit := EXIT_FAILURE, invoked := some i, diags := st.diags }
    | HandlerOutcome.errOther =>
        { exit := EXIT_FAILURE, invoked := some i, diags := st.diags ++ [Diag.handlerError] }

/-- The subcommand-resolution part of `main` after the scan: with the help
flag, the subcommand is the canonical `help` entry; otherwise the first
remaining positional argument is looked up and canonicalized, with `none`
for a missing or unknown subcommand. -/
def resolve_subcommand (help : Bool) (args : List (List Char)) : Option Nat :=
  match (if help then svn_cl__get_canonical_command (some ("help".toList)) else none) with
  | some i => some i
  | none =>
      match args with
      | [] => none
      | first :: _ => svn_cl__get_canonical_command (some first)

/-- The post-scan tail of `main`: resolve the subcommand (printing
`subcommand argument required` or `unknown command` with a failure exit
when that fails), then run the guard and the handler. -/
def dispatch (st : ScanState) (args : List (List Char)) (hnd : Nat → HandlerOutcome) :
    MainResult :=
  match (if st.os.help then svn_cl__get_canonical_command (some ("help".toList)) else none) with
  | some i => run_guard_and_handler st i hnd
  | none =>
      match args with
      | [] => { exit := EXIT_FAILURE, invoked := none, diags := st.diags ++ [Diag.subcommandRequired] }
      | first :: _ =>
          match svn_cl__get_canonical_command (some first) with
          | none =>
              { exit := EXIT_FAILURE, invoked := none
              , diags := st.diags ++ [Diag.unknownCommand first] }
          | some i => run_guard_and_handler st i hnd

/-- The claim's description of a head form: `h` or `head`, each character
independently upper or lower case, so exactly 1 or exactly 4 characters. -/
def isHeadForm : List Char → Bool
  | [c] => c == 'h' || c == 'H'
  | [c1, c2, c3, c4] =>
      (c1 == 'h' || c1 == 'H') && (c2 == 'e' || c2 == 'E')
        && (c3 == 'a' || c3 == 'A') && (c4 == 'd' || c4 == 'D')
  | _ => false

/-- A date-parsing collaborator that accepts everything, with value 42. -/
def pd_const42 : List Char → Option Int := fun _ => some 42

/-- An environment whose collaborators all fail: the date parser rejects
every string, file reads fail, no path is under version control, and
`setlocale` fails. -/
def rejectAllEnv : Env :=
  { pd := fun _ => none, readFile := fun _ => none
  , wcEntry := fun _ => false, setlocaleOk := fun _ => false }

/-! ## Helper lemmas -/

theorem splitFirstColon_eq_none (arg : List Char) (h : ':' ∉ arg) :
    splitFirstColon arg = none := by
  induction arg with
  | nil => rfl
  | cons c rest ih =>
    simp only [List.mem_cons, not_or] at h
    have hc : ¬ c = ':' := fun hh => h.1 hh.symm
    simp only [splitFirstColon, if_neg hc]
    rw [ih h.2]

/-- C1: the revision-range parser decodes exactly per the spec's table:
`5` gives (5, 5); `5:10` gives (5, 10); `5:head` gives (5, latest);
`head:5` gives (latest, 5); `HEAD`, `head` and `H` each give
(latest, latest); `abc`, `5:6:7` and `heads` are each rejected as a syntax
error; every head form (case-insensitive, exactly 1 or exactly 4
characters) gives (latest, latest); and an empty half decodes to the
latest sentinel. -/
theorem C1_revision_range_table (os : OptState) :
    parse_revision os ("5".toList) = (0, { os with start_revision := 5, end_revision := 5 })
    ∧ parse_revision os ("5:10".toList)
        = (0, { os with start_revision := 5, end_revision := 10 })
    ∧ parse_revision os ("5:head".toList)
        = (0, { os with start_revision := 5, end_revision := SVN_INVALID_REVNUM })
    ∧ parse_revision os ("head:5".toList)
        = (0, { os with start_revision := SVN_INVALID_REVNUM, end_revision := 5 })
    ∧ parse_revision os ("HEAD".toList)
        = (0, { os with start_revision := SVN_INVALID_REVNUM, end_revision := SVN_INVALID_REVNUM })
    ∧ parse_revision os ("head".toList)
        = (0, { os with start_revision := SVN_INVALID_REVNUM, end_revision := SVN_INVALID_REVNUM })
    ∧ parse_revision os ("H".toList)
        = (0, { os with start_revision := SVN_INVALID_REVNUM, end_revision := SVN_INVALID_REVNUM })
    ∧ parse_revision os ("abc".toList) = (1, os)
    ∧ parse_revision os ("5:6:7".toList) = (1, os)
    ∧ parse_revision os ("heads".toList) = (1, os)
    ∧ (∀ s, isHeadForm s = true →
        parse_revision os s
          = (0, { os with start_revision := SVN_INVALID_REVNUM, end_revision := SVN_INVALID_REVNUM }))
    ∧ parse_revision os ("5:".toList)
        = (0, { os with start_revision := 5, end_revision := SVN_INVALID_REVNUM })
    ∧ parse_revision os (":5".toList)
        = (0, { os with start_revision := SVN_INVALID_REVNUM, end_revision := 5 }) := by
  refine ⟨rfl, rfl, rfl, rfl, rfl, rfl, rfl, rfl, rfl, rfl, ?_, rfl, rfl⟩
  intro s hs
  rcases s with _ | ⟨c1, _ | ⟨c2, _ | ⟨c3, _ | ⟨c4, _ | ⟨c5, rest⟩⟩⟩⟩⟩
  · simp [isHeadForm] at hs
  · simp only [isHeadForm, Bool.or_eq_true, beq_iff_eq] at hs
    rcases hs with rfl | rfl <;> rfl
  · simp [isHeadForm] at hs
  · simp [isHeadForm] at hs
  · simp only [isHeadForm, Bool.or_eq_true, Bool.and_eq_true, beq_iff_eq] at hs
    obtain ⟨⟨⟨h1, h2⟩, h3⟩, h4⟩ := hs
    rcases h1 with rfl | rfl <;> rcases h2 with rfl | rfl <;>
      rcases h3 with rfl | rfl <;> rcases h4 with rfl | rfl <;> rfl
  · simp [isHeadForm] at hs

/-- Witness for C1: the mixed-case head form `hEAd` is accepted and decodes
to (latest, latest). -/
theorem C1_revision_range_table_witness :
    isHeadForm ("hEAd".toList) = true
    ∧ parse_revision opt_state_initial ("hEAd".toList)
        = (0, { opt_state_initial with
                start_revision := SVN_INVALID_REVNUM
              , end_revision := SVN_INVALID_REVNUM }) :=
  ⟨by decide,
   (C1_revision_range_table opt_state_initial).2.2.2.2.2.2.2.2.2.2.1
     ("hEAd".toList) (by decide)⟩

/-- C4: every input the revision-range parser rejects makes it return the
syntax-error result 1 and leave the option state — in particular
`start_revision` and `end_revision` — exactly as it was (no partial
assignment on failure). -/
theorem C4_revision_failure_leaves_state (os : OptState) (arg : List Char)
    (h : (parse_revision os arg).fst ≠ 0) :
    parse_revision os arg = (1, os) := by
  cases hsp : splitFirstColon arg with
  | none =>
    simp only [parse_revision, hsp] at h ⊢
    split_ifs at h ⊢ with h1
    · rfl
    · exact absurd rfl h
  | some p =>
    obtain ⟨l, r⟩ := p
    simp only [parse_revision, hsp] at h ⊢
    split_ifs at h ⊢ <;> first | rfl | exact absurd rfl h

/-- Witness for C4: the doubly-coloned input `5:6:7` is rejected and the
initial option state is returned untouched. -/
theorem C4_revision_failure_leaves_state_witness :
    parse_revision opt_state_initial ("5:6:7".toList) = (1, opt_state_initial) :=
  C4_revision_failure_leaves_state opt_state_initial ("5:6:7".toList) (by decide)

/-- C2: the date-range parser assigns both `start_date` and `end_date` from
the one parsed date when there is no separator; with one separator each
non-empty half is parsed and assigns only its own endpoint while an empty
half leaves its date field exactly as it was, and nothing else in the state
changes; an input with a second colon after the first is rejected with
result 1 and the state — in particular both date fields — untouched. -/
theorem C2_date_range (pd : List Char → Option Int) (os : OptState) (arg : List Char) :
    (':' ∉ arg →
      parse_date pd os arg
        = (0, { os with
                start_date := apr_ansi_time_to_apr_time (svn_parse_date pd arg)
              , end_date := apr_ansi_time_to_apr_time (svn_parse_date pd arg) }))
    ∧ (∀ l r, splitFirstColon arg = some (l, r) → ':' ∈ r →
        parse_date pd os arg = (1, os))
    ∧ (∀ l r, splitFirstColon arg = some (l, r) → ':' ∉ r →
        (parse_date pd os arg).fst = 0
        ∧ (parse_date pd os arg).snd.start_date
            = (if l ≠ [] then apr_ansi_time_to_apr_time (svn_parse_date pd l)
               else os.start_date)
        ∧ (parse_date pd os arg).snd.end_date
            = (if r ≠ [] then apr_ansi_time_to_apr_time (svn_parse_date pd r)
               else os.end_date)
        ∧ { (parse_date pd os arg).snd with
            start_date := os.start_date, end_date := os.end_date } = os) := by
  refine ⟨?_, ?_, ?_⟩
  · intro h
    simp only [parse_date, splitFirstColon_eq_none arg h]
  · intro l r hsp hr
    simp only [parse_date, hsp, if_pos hr]
  · intro l r hsp hr
    simp only [parse_date, hsp, if_neg hr, date_assign_right, date_assign_left]
    split_ifs <;> refine ⟨by trivial, ?_, ?_, ?_⟩ <;> trivial

/-- Witness for C2: with a collaborator that parses every date to 42,
`a:b:c` is rejected leaving the initial state untouched, and `a:` assigns
only `start_date` (42 seconds converted to microseconds), leaving
`end_date` at its prior value. -/
theorem C2_date_range_witness :
    parse_date pd_const42 opt_state_initial ("a:b:c".toList) = (1, opt_state_initial)
    ∧ (parse_date pd_const42 opt_state_initial ("a:".toList)).snd.start_date = 42000000
    ∧ (parse_date pd_const42 opt_state_initial ("a:".toList)).snd.end_date
        = opt_state_initial.end_date := by
  refine ⟨(C2_date_range pd_const42 opt_state_initial ("a:b:c".toList)).2.1
            ("a".toList) ("b:c".toList) (by decide) (by decide), ?_, ?_⟩
  · have h := (C2_date_range pd_const42 opt_state_initial ("a:".toList)).2.2
      ("a".toList) [] (by decide) (by decide)
    rw [h.2.1]
    decide
  · have h := (C2_date_range pd_const42 opt_state_initial ("a:".toList)).2.2
      ("a".toList) [] (by decide) (by decide)
    rw [h.2.2.1]
    decide

/-- C3: evaluation of the code at the failing input.  The claim says a
rejection from the external date collaborator makes `parse_date` report a
syntax error (non-zero) and the dispatcher exit fatally; the code instead
never inspects the collaborator's result: on the colon-free input `bogus`,
rejected by the collaborator, `parse_date` returns 0 and stores the
converted `-1` failure marker in both date fields, and the option scan
continues to a successful (non-fatal) end with no diagnostic printed. -/
theorem C3_rejected_date_not_fatal :
    (parse_date rejectAllEnv.pd opt_state_initial ("bogus".toList)).fst = 0
    ∧ scanLoop rejectAllEnv [ScanItem.opt ('D'.toNat) ("bogus".toList)] scan_state_initial
        = Sum.inl { os := { opt_state_initial with start_date := -1000000, end_date := -1000000 }
                  , log_under_version_control := false, diags := [] } :=
  ⟨rfl, rfl⟩

theorem get_some_lt_length {α : Type} :
    ∀ (l : List α) (n : Nat) (d : α), l[n]? = some d → n < l.length := by
  intro l
  induction l with
  | nil => intro n d h; simp at h
  | cons a rest ih =>
    intro n d h
    cases n with
    | zero => simp
    | succ n2 =>
      simp only [List.getElem?_cons_succ] at h
      have := ih n2 d h
      simp only [List.length_cons]
      omega

theorem find_in_table_eq_none (s : List Char) :
    ∀ (l : List CmdDesc) (i : Nat), (∀ d ∈ l, d.name ≠ s) → find_in_table l s i = none := by
  intro l
  induction l with
  | nil => intro i _; rfl
  | cons d rest ih =>
    intro i h
    simp only [find_in_table, if_neg (h d (List.mem_cons_self d rest))]
    exact ih (i + 1) (fun d2 hd2 => h d2 (List.mem_cons_of_mem d hd2))

theorem find_in_table_eq_some (s : List Char) :
    ∀ (l : List CmdDesc) (i j : Nat), find_in_table l s i = some j →
      i ≤ j ∧ ∃ d, l[j - i]? = some d ∧ d.name = s ∧
        ∀ k, k < j - i → ∀ d2, l[k]? = some d2 → d2.name ≠ s := by
  intro l
  induction l with
  | nil => intro i j h; simp [find_in_table] at h
  | cons d rest ih =>
    intro i j h
    simp only [find_in_table] at h
    by_cases hd : d.name = s
    · rw [if_pos hd] at h
      injection h with h
      subst h
      refine ⟨Nat.le_refl i, d, ?_, hd, ?_⟩
      · simp
      · intro k hk
        omega
    · rw [if_neg hd] at h
      obtain ⟨hij, d2, hget, hname, hmin⟩ := ih (i + 1) j h
      refine ⟨by omega, d2, ?_, hname, ?_⟩
      · have he : j - i = (j - (i + 1)) + 1 := by omega
        rw [he]
        simpa using hget
      · intro k hk d3 hget3
        cases k with
        | zero =>
          simp only [List.getElem?_cons_zero, Option.some.injEq] at hget3
          rw [← hget3]
          exact hd
        | succ k2 =>
          simp only [List.getElem?_cons_succ] at hget3
          exact hmin k2 (by omega) d3 hget3

theorem lookup_lt_length (s : List Char) (i : Nat)
    (h : get_cmd_table_entry (some s) = some i) : i < svn_cl__cmd_table.length := by
  simp only [get_cmd_table_entry] at h
  obtain ⟨-, d, hget, -, -⟩ := find_in_table_eq_some s svn_cl__cmd_table 0 i h
  simpa using get_some_lt_length svn_cl__cmd_table i d (by simpa using hget)

theorem lookup_name (s : List Char) (i : Nat)
    (h : get_cmd_table_entry (some s) = some i) : nameAt i = some s := by
  simp only [get_cmd_table_entry] at h
  obtain ⟨-, d, hget, hname, -⟩ := find_in_table_eq_some s svn_cl__cmd_table 0 i h
  simp only [Nat.sub_zero] at hget
  simp [nameAt, hget, hname]

theorem all_walk_ok : ∀ i, i < svn_cl__cmd_table.length → walk_ok i = true := by decide

/-- C7: registry lookup returns notFound for a null name without scanning,
returns notFound for every string matching no entry name, and for every
matching string returns the first entry in table order whose name is an
exact match (no earlier entry matches). -/
theorem C7_lookup_contract :
    get_cmd_table_entry none = none
    ∧ (∀ s, (∀ d ∈ svn_cl__cmd_table, d.name ≠ s) → get_cmd_table_entry (some s) = none)
    ∧ (∀ s i, get_cmd_table_entry (some s) = some i →
        ∃ d, svn_cl__cmd_table[i]? = some d ∧ d.name = s
          ∧ ∀ k, k < i → ∀ d2, svn_cl__cmd_table[k]? = some d2 → d2.name ≠ s) := by
  refine ⟨rfl, ?_, ?_⟩
  · intro s h
    simp only [get_cmd_table_entry]
    exact find_in_table_eq_none s svn_cl__cmd_table 0 h
  · intro s i h
    simp only [get_cmd_table_entry] at h
    obtain ⟨-, d, hget, hname, hmin⟩ := find_in_table_eq_some s svn_cl__cmd_table 0 i h
    simp only [Nat.sub_zero] at hget hmin
    exact ⟨d, hget, hname, hmin⟩

/-- Witness for C7: the unknown name `zzz` is not found, and the alias `co`
is found at index 4 (first exact match, no earlier entry named `co`). -/
theorem C7_lookup_contract_witness :
    get_cmd_table_entry (some ("zzz".toList)) = none
    ∧ ∃ d, svn_cl__cmd_table[(4 : Nat)]? = some d ∧ d.name = "co".toList
        ∧ ∀ k, k < 4 → ∀ d2, svn_cl__cmd_table[k]? = some d2 → d2.name ≠ "co".toList :=
  ⟨C7_lookup_contract.2.1 ("zzz".toList) (by decide),
   C7_lookup_contract.2.2 ("co".toList) 4 (by decide)⟩

/-- C6: for every name present in the command registry, canonicalization is
idempotent (walking from the found index gives a fixed point of the walk),
the result is a non-alias entry, and when the found entry is an alias the
canonical entry's name differs from the looked-up alias name. -/
theorem C6_canonicalize_idempotent (s : List Char) (i : Nat)
    (h : get_cmd_table_entry (some s) = some i) :
    ∃ j, svn_cl__get_canonical_command (some s) = some j
      ∧ canonical_walk i = some j
      ∧ canonical_walk j = some j
      ∧ isAliasAt j = false
      ∧ (isAliasAt i = true → nameAt j ≠ some s) := by
  have hlt := lookup_lt_length s i h
  have hname := lookup_name s i h
  have hwo := all_walk_ok i hlt
  cases hcw : canonical_walk i with
  | none => rw [walk_ok, hcw] at hwo; cases hwo
  | some j =>
    rw [walk_ok, hcw] at hwo
    simp only [Bool.and_eq_true, Bool.or_eq_true, decide_eq_true_eq] at hwo
    obtain ⟨⟨⟨hle, hfix⟩, hnal⟩, hor⟩ := hwo
    refine ⟨j, ?_, rfl, hfix, hnal, ?_⟩
    · simp only [svn_cl__get_canonical_command, h, hcw]
    · intro hal
      rcases hor with hor | hor
      · rw [hal] at hor; cases hor
      · rw [← hname]; exact hor

/-- Witness for C6: looking up the alias `ci` finds index 7; the walk lands
on index 6 (`commit`), a non-alias fixed point whose name differs from `ci`. -/
theorem C6_canonicalize_idempotent_witness :
    get_cmd_table_entry (some ("ci".toList)) = some 7
    ∧ ∃ j, svn_cl__get_canonical_command (some ("ci".toList)) = some j
        ∧ canonical_walk 7 = some j
        ∧ canonical_walk j = some j
        ∧ isAliasAt j = false
        ∧ (isAliasAt 7 = true → nameAt j ≠ some ("ci".toList)) :=
  ⟨by decide, C6_canonicalize_idempotent ("ci".toList) 7 (by decide)⟩

/-- C10: the backward alias walk of canonicalization always terminates at a
non-alias entry while still inside the table: the first table entry is not
an alias, and from every index found by lookup the walk reaches, without
stepping before index 0 (which would be `none`), some index `j ≤ i` whose
entry is not an alias. -/
theorem C10_walk_stays_in_table (s : List Char) (i : Nat)
    (h : get_cmd_table_entry (some s) = some i) :
    isAliasAt 0 = false
    ∧ ∃ j, canonical_walk i = some j ∧ j ≤ i ∧ isAliasAt j = false := by
  have hlt := lookup_lt_length s i h
  have hwo := all_walk_ok i hlt
  refine ⟨by decide, ?_⟩
  cases hcw : canonical_walk i with
  | none => rw [walk_ok, hcw] at hwo; cases hwo
  | some j =>
    rw [walk_ok, hcw] at hwo
    simp only [Bool.and_eq_true, Bool.or_eq_true, decide_eq_true_eq] at hwo
    exact ⟨j, rfl, hwo.1.1.1, hwo.1.2⟩

/-- Witness for C10: the alias `up` is found at index 47 and the walk lands
on the non-alias entry `update` at index 46, inside the table. -/
theorem C10_walk_stays_in_table_witness :
    get_cmd_table_entry (some ("up".toList)) = some 47
    ∧ isAliasAt 0 = false
    ∧ ∃ j, canonical_walk 47 = some j ∧ j ≤ 47 ∧ isAliasAt j = false :=
  ⟨by decide, C10_walk_stays_in_table ("up".toList) 47 (by decide)⟩

theorem scanStep_F (env : Env) (st : ScanState) (arg : List Char) :
    scanStep env st ('F'.toNat) arg
      = match env.readFile arg with
        | none => Sum.inr (st.diags ++ [Diag.fileReadError arg])
        | some data =>
            Sum.inl { st with
                      os := { st.os with filedata := some data },
                      log_under_version_control :=
                        st.log_under_version_control || env.wcEntry arg } := rfl

theorem scanStep_locale (env : Env) (st : ScanState) (arg : List Char) :
    scanStep env st svn_cl__locale_opt arg
      = if env.setlocaleOk arg then Sum.inl st
        else Sum.inl { st with diags := st.diags ++ [Diag.localeError arg] } := rfl

theorem parse_date_preserves_revisions (pd : List Char → Option Int) (os : OptState)
    (arg : List Char) :
    (parse_date pd os arg).snd.start_revision = os.start_revision
    ∧ (parse_date pd os arg).snd.end_revision = os.end_revision := by
  cases hsp : splitFirstColon arg with
  | none => simp [parse_date, hsp]
  | some p =>
    obtain ⟨l, r⟩ := p
    simp only [parse_date, hsp, date_assign_right, date_assign_left]
    split_ifs <;> simp

theorem scanStep_preserves_revisions (env : Env) (st : ScanState) (id : Nat)
    (arg : List Char) (hid : id ≠ 'r'.toNat) (st2 : ScanState)
    (h2 : scanStep env st id arg = Sum.inl st2) :
    st2.os.start_revision = st.os.start_revision
    ∧ st2.os.end_revision = st.os.end_revision := by
  unfold scanStep at h2
  split at h2 <;>
    first
      | exact absurd rfl hid
      | (injection h2 with h3; subst h3; exact ⟨rfl, rfl⟩)
      | (split_ifs at h2 <;>
          first
            | exact Sum.noConfusion h2
            | (injection h2 with h3; subst h3;
                first
                  | exact ⟨rfl, rfl⟩
                  | exact parse_date_preserves_revisions env.pd st.os arg))
      | (cases henv : env.readFile arg <;> rw [henv] at h2 <;>
          first
            | exact Sum.noConfusion h2
            | (injection h2 with h3; subst h3; exact ⟨rfl, rfl⟩))

theorem scanLoop_preserves_revisions (env : Env) :
    ∀ (items : List ScanItem) (st st2 : ScanState),
      (∀ a, ScanItem.opt ('r'.toNat) a ∉ items) →
      scanLoop env items st = Sum.inl st2 →
      st2.os.start_revision = st.os.start_revision
      ∧ st2.os.end_revision = st.os.end_revision := by
  intro items
  induction items with
  | nil =>
    intro st st2 _ h
    simp only [scanLoop] at h
    injection h with h
    subst h
    exact ⟨rfl, rfl⟩
  | cons item rest ih =>
    intro st st2 hno h
    cases item with
    | tokenizerFailure => simp [scanLoop] at h
    | opt id arg =>
      have hid : id ≠ ('r').toNat := by
        intro he
        subst he
        exact hno arg (List.mem_cons_self _ _)
      have hno2 : ∀ a, ScanItem.opt ('r'.toNat) a ∉ rest := by
        intro a ha
        exact hno a (List.mem_cons_of_mem _ ha)
      simp only [scanLoop] at h
      cases hstep : scanStep env st id arg with
      | inl st3 =>
        rw [hstep] at h
        have ha := scanStep_preserves_revisions env st id arg hid st3 hstep
        have hb := ih st3 st2 hno2 h
        exact ⟨hb.1.trans ha.1, hb.2.trans ha.2⟩
      | inr d =>
        rw [hstep] at h
        simp at h

/-- C9: before any option is scanned, the revision-range defaults are
asymmetric in kind — `start_revision` is the latest sentinel
`SVN_INVALID_REVNUM` while `end_revision` is the concrete value 1 — and any
scan whose items contain no revision switch hands a state with exactly
these two values to the later dispatch. -/
theorem C9_asymmetric_revision_defaults :
    opt_state_initial.start_revision = SVN_INVALID_REVNUM
    ∧ opt_state_initial.end_revision = 1
    ∧ ∀ (env : Env) (items : List ScanItem) (st2 : ScanState),
        (∀ a, ScanItem.opt ('r'.toNat) a ∉ items) →
        scanLoop env items scan_state_initial = Sum.inl st2 →
        st2.os.start_revision = SVN_INVALID_REVNUM ∧ st2.os.end_revision = 1 := by
  refine ⟨rfl, rfl, ?_⟩
  intro env items st2 hno h
  have hp := scanLoop_preserves_revisions env items scan_state_initial st2 hno h
  exact ⟨hp.1.trans rfl, hp.2.trans rfl⟩

/-- Witness for C9: the empty scan contains no revision switch and leaves
the state at the asymmetric defaults. -/
theorem C9_asymmetric_revision_defaults_witness :
    (∀ a, ScanItem.opt ('r'.toNat) a ∉ ([] : List ScanItem))
    ∧ scanLoop rejectAllEnv [] scan_state_initial = Sum.inl scan_state_initial
    ∧ scan_state_initial.os.start_revision = SVN_INVALID_REVNUM
    ∧ scan_state_initial.os.end_revision = 1 :=
  ⟨fun a => List.not_mem_nil (ScanItem.opt ('r'.toNat) a), rfl,
   C9_asymmetric_revision_defaults.2.2 rejectAllEnv [] scan_state_initial
     (fun a => List.not_mem_nil (ScanItem.opt ('r'.toNat) a)) rfl⟩

theorem scanStep_core_eq (env : Env) (id : Nat) (arg : List Char) (st1 st2 : ScanState)
    (h : scan_core st1 = scan_core st2) :
    outcome_core (scanStep env st1 id arg) = outcome_core (scanStep env st2 id arg) := by
  obtain ⟨os1, l1, d1⟩ := st1
  obtain ⟨os2, l2, d2⟩ := st2
  simp only [scan_core, Prod.mk.injEq] at h
  obtain ⟨h1, h2⟩ := h
  subst h1
  subst h2
  unfold scanStep
  split <;>
    first
      | rfl
      | (split_ifs <;> rfl)
      | (cases henv : env.readFile arg <;> rfl)

theorem scanLoop_core_eq (env : Env) :
    ∀ (items : List ScanItem) (st1 st2 : ScanState),
      scan_core st1 = scan_core st2 →
      outcome_core (scanLoop env items st1) = outcome_core (scanLoop env items st2) := by
  intro items
  induction items with
  | nil =>
    intro st1 st2 h
    simpa [scanLoop, outcome_core] using h
  | cons item rest ih =>
    intro st1 st2 h
    cases item with
    | tokenizerFailure => simp [scanLoop, outcome_core]
    | opt id arg =>
      have hm := scanStep_core_eq env id arg st1 st2 h
      simp only [scanLoop]
      cases h1 : scanStep env st1 id arg with
      | inl a1 =>
        cases h2 : scanStep env st2 id arg with
        | inl a2 =>
          rw [h1, h2] at hm
          simp only [outcome_core, Option.some.injEq] at hm
          exact ih a1 a2 hm
        | inr d2 =>
          rw [h1, h2] at hm
          simp [outcome_core] at hm
      | inr d1 =>
        cases h2 : scanStep env st2 id arg with
        | inl a2 =>
          rw [h1, h2] at hm
          simp [outcome_core] at hm
        | inr d2 => simp [outcome_core]

/-- C8: a locale switch whose value the locale collaborator rejects is
reported as a diagnostic but the option scan continues: the whole scan
equals the scan of the remaining items from the same state with only the
diagnostic appended, no failure exit happens at that point, and the
scan's resulting option state and versioned-log flag are exactly those of
a scan in which the locale switch succeeded. -/
theorem C8_locale_failure_nonfatal (env : Env) (st : ScanState) (l : List Char)
    (rest : List ScanItem) :
    (env.setlocaleOk l = false →
      scanLoop env (ScanItem.opt svn_cl__locale_opt l :: rest) st
        = scanLoop env rest { st with diags := st.diags ++ [Diag.localeError l] }
      ∧ outcome_core (scanLoop env (ScanItem.opt svn_cl__locale_opt l :: rest) st)
          = outcome_core (scanLoop env rest st))
    ∧ (env.setlocaleOk l = true →
        scanLoop env (ScanItem.opt svn_cl__locale_opt l :: rest) st
          = scanLoop env rest st) := by
  constructor
  · intro h
    have hstep := scanStep_locale env st l
    rw [h] at hstep
    simp only [Bool.false_eq_true, if_false] at hstep
    have h1 : scanLoop env (ScanItem.opt svn_cl__locale_opt l :: rest) st
        = scanLoop env rest { st with diags := st.diags ++ [Diag.localeError l] } := by
      simp only [scanLoop, hstep]
    refine ⟨h1, ?_⟩
    rw [h1]
    exact scanLoop_core_eq env rest { st with diags := st.diags ++ [Diag.localeError l] } st rfl
  · intro h
    have hstep := scanStep_locale env st l
    rw [h] at hstep
    simp only [if_true] at hstep
    simp only [scanLoop, hstep]

/-- Witness for C8: in the all-rejecting environment the locale switch `xx`
fails, only a diagnostic is appended, and the scan of no further items ends
non-fatally. -/
theorem C8_locale_failure_nonfatal_witness :
    rejectAllEnv.setlocaleOk ("xx".toList) = false
    ∧ scanLoop rejectAllEnv [ScanItem.opt svn_cl__locale_opt ("xx".toList)] scan_state_initial
        = Sum.inl { scan_state_initial with diags := [Diag.localeError ("xx".toList)] } := by
  refine ⟨rfl, ?_⟩
  have h := (C8_locale_failure_nonfatal rejectAllEnv scan_state_initial ("xx".toList) []).1 rfl
  simpa [scanLoop] using h.1

theorem dispatch_resolved (st : ScanState) (args : List (List Char))
    (hnd : Nat → HandlerOutcome) (i : Nat)
    (hres : resolve_subcommand st.os.help args = some i) :
    dispatch st args hnd = run_guard_and_handler st i hnd := by
  unfold resolve_subcommand at hres
  unfold dispatch
  cases hh : (if st.os.help then svn_cl__get_canonical_command (some ("help".toList)) else none) with
  | some j =>
    rw [hh] at hres
    have hji : j = i := by injection hres
    subst hji
    rfl
  | none =>
    rw [hh] at hres
    cases args with
    | nil => simp at hres
    | cons first2 restArgs =>
      simp at hres
      simp only [hres]

/-- C5: when the file given to the file-content switch is under version
control (the scan recorded `log_under_version_control`), the dispatcher
with the force flag clear refuses with the log-message-is-versioned-file
error and a failure exit before invoking any handler; with the force flag
set, dispatch proceeds to the chosen handler.  The scan records the flag
exactly when the file-content switch's file reads successfully and the
working-copy entry check finds it versioned. -/
theorem C5_versioned_log_message_guard (st : ScanState) (args : List (List Char))
    (hnd : Nat → HandlerOutcome) (i : Nat)
    (hl : st.log_under_version_control = true)
    (hres : resolve_subcommand st.os.help args = some i) :
    (st.os.force = false →
      dispatch st args hnd
        = { exit := EXIT_FAILURE, invoked := none
          , diags := st.diags ++ [Diag.logMsgVersionedFile] })
    ∧ (st.os.force = true → (dispatch st args hnd).invoked = some i)
    ∧ (∀ (env : Env) (st2 : ScanState) (arg data : List Char),
        env.readFile arg = some data → env.wcEntry arg = true →
        scanStep env st2 ('F'.toNat) arg
          = Sum.inl { st2 with
                      os := { st2.os with filedata := some data },
                      log_under_version_control := true }) := by
  have hd := dispatch_resolved st args hnd i hres
  refine ⟨?_, ?_, ?_⟩
  · intro hforce
    rw [hd]
    unfold run_guard_and_handler
    rw [hl, hforce]
    simp
  · intro hforce
    rw [hd]
    unfold run_guard_and_handler
    rw [hl, hforce]
    simp only [Bool.not_true, Bool.and_false, Bool.false_eq_true, if_false]
    cases hnd i <;> rfl
  · intro env st2 arg data hrd hwc
    rw [scanStep_F, hrd, hwc]
    simp

/-- Witness for C5: with the versioned-log flag set, no force flag, and the
subcommand `add` resolving to table index 0, dispatch refuses with the
log-message-is-versioned-file error and no handler runs. -/
theorem C5_versioned_log_message_guard_witness :
    resolve_subcommand false ["add".toList] = some 0
    ∧ dispatch { os := opt_state_initial, log_under_version_control := true, diags := [] }
        ["add".toList] (fun _ => HandlerOutcome.success)
        = { exit := EXIT_FAILURE, invoked := none, diags := [Diag.logMsgVersionedFile] } := by
  refine ⟨by decide, ?_⟩
  have h := (C5_versioned_log_message_guard
      { os := opt_state_initial, log_under_version_control := true, diags := [] }
      ["add".toList] (fun _ => HandlerOutcome.success) 0 rfl (by decide)).1 rfl
  simpa using h
